import Mathlib

/-!
Lean model of the query-to-answer pipeline of a small RAG chatbot
(`app/chatbot_service.py`, `app/main.py`, `scripts/build_knowledge_base.py`).

External effectful calls (the vector-index query and the LLM chat-completion
call) are modelled as `Except`-valued oracles supplied as parameters; a Python
exception raised inside a `try` block corresponds to an `Except.error` value
inspected by `match`, and the `except` branch to the error arm of that match.
The embedding model call `self.embedding_model.encode(query)` has no failure
handling in the source and is modelled as a total function held by the
service.
-/

/-- Python exception value: the distinctions the model needs are an
`IndexError` (from `xs[0]`), an `AttributeError` (from `None.strip()`), and
any other runtime error raised by a library call. -/
inductive PyErr where
  | indexError
  | attributeError
  | runtimeError
deriving DecidableEq

/-- Python `str.strip()`: remove leading and trailing whitespace. -/
def pyStrip (s : String) : String :=
  ⟨((s.data.dropWhile Char.isWhitespace).reverse.dropWhile Char.isWhitespace).reverse⟩

/-- Embedding vector produced by the sentence-transformer model. -/
abbrev EmbeddingVector := List Rat

/-- Metadata dictionary attached to a stored document. -/
abbrev Metadata := List (String × String)

/-- Result dictionary of `collection.query`: the `documents`, `metadatas` and
`distances` keys each hold a list of rows (one row per query embedding); a
key that is absent is `none`, which `dict.get` replaces by the default
`[[]]`. -/
structure QueryResults where
  documents : Option (List (List String))
  metadatas : Option (List (List Metadata))
  distances : Option (List (List Rat))

/-- Python `xs[0]`: the first element, or an `IndexError`. -/
def listGet0 {α : Type} : List α → Except PyErr α
  | [] => Except.error PyErr.indexError
  | x :: _ => Except.ok x

/-- Python attribute access on a possibly-`None` value: `None.strip()` raises
an `AttributeError`. -/
def optAttr {α : Type} : Option α → Except PyErr α
  | none => Except.error PyErr.attributeError
  | some a => Except.ok a

/-- Fixed sentence substituted for the context block when no documents are
retrieved (`chatbot_service.py` line 97). -/
def noContextSentence : String :=
  "No specific information found in the knowledge base for this query."

/-- Opening instruction of the prompt template (lines 103-104): answer *only*
from the supplied context, and state explicitly when the context does not
contain the answer. -/
def groundingInstruction : String :=
  "You are an empathetic and helpful AI assistant. Your primary goal is to assist users with their questions based *only* on the information provided in the \"Knowledge Base Context\" below.\nIf the context does not contain the answer to the question, clearly state that you don\x27t have enough information from the knowledge base. Do not make up information or answer from your general knowledge.\n"

/-- Prompt template from its start up to the interpolated context string. -/
def promptHead : String :=
  "You are an empathetic and helpful AI assistant. Your primary goal is to assist users with their questions based *only* on the information provided in the \"Knowledge Base Context\" below.\nIf the context does not contain the answer to the question, clearly state that you don\x27t have enough information from the knowledge base. Do not make up information or answer from your general knowledge.\nBe polite, understanding, and aim to provide clear and concise answers.\n\nKnowledge Base Context:\n---\n"

/-- Prompt template between the context string and the user query. -/
def promptMid : String := "\n---\n\nUser\x27s Question: "

/-- Prompt template after the user query. -/
def promptTail : String :=
  "\n\nHelpful and Empathetic Answer (based *only* on the Knowledge Base Context):\n"

/-- Python `sep.join(xs)`. -/
def joinSep (sep : String) : List String → String
  | [] => ""
  | [d] => d
  | d :: rest => d ++ sep ++ joinSep sep rest

/-- Context block of the prompt (`_construct_prompt`, lines 92-99): the fixed
fallback sentence when `context_documents` is empty, otherwise the document
texts joined by a blank line. -/
def context_str (context_documents : List String) : String :=
  if context_documents.isEmpty then noContextSentence
  else joinSep "\n\n" context_documents

/-- ChatbotService._construct_prompt (lines 89-117): the f-string template
instantiated with the context block and the user query. -/
def construct_prompt (query : String) (context_documents : List String) : String :=
  promptHead ++ context_str context_documents ++ promptMid ++ query ++ promptTail

/-- Extraction of the first row of each field of the query result:
`results.get('documents', [[]])[0]` and its two siblings (lines 77-79). -/
def queryExtract (results : QueryResults) :
    Except PyErr (List String × List Metadata × List Rat) := do
  let retrieved_docs ← listGet0 (results.documents.getD [[]])
  let retrieved_metadatas ← listGet0 (results.metadatas.getD [[]])
  let retrieved_distances ← listGet0 (results.distances.getD [[]])
  return (retrieved_docs, retrieved_metadatas, retrieved_distances)

/-- ChatbotService._retrieve_context (lines 66-87): wrap the vector-index
query in `try`; any exception raised by the query call or by the extraction
yields the empty result triple. -/
def retrieve_context (collectionQuery : EmbeddingVector → Nat → Except PyErr QueryResults)
    (query_embedding : EmbeddingVector) (n_results : Nat := 3) :
    List String × List Metadata × List Rat :=
  match collectionQuery query_embedding n_results with
  | Except.error _ => ([], [], [])
  | Except.ok results =>
    match queryExtract results with
    | Except.error _ => ([], [], [])
    | Except.ok v => v

/-- Message object of one chat-completion choice; `content` may be `None`. -/
structure LLMMessage where
  content : Option String

/-- One choice of a chat-completion response. -/
structure LLMChoice where
  message : LLMMessage

/-- Chat-completion response: a list of choices. -/
structure LLMResponse where
  choices : List LLMChoice

/-- Fixed user-facing apology returned when the LLM call fails (line 138). -/
def apologyMessage : String :=
  "I\x27m sorry, but I encountered an issue while trying to generate a response. Please try again later."

/-- Extraction `response.choices[0].message.content.strip()` (line 132). -/
def llmExtract (response : LLMResponse) : Except PyErr String := do
  let choice ← listGet0 response.choices
  let content ← optAttr choice.message.content
  return pyStrip content

/-- ChatbotService._generate_llm_response (lines 119-138): send the prompt to
the chat-completion endpoint inside `try`; any exception from the call or
from the extraction of the generated text yields the fixed apology. -/
def generate_llm_response (llmCreate : String → Except PyErr LLMResponse)
    (prompt : String) : String :=
  match llmCreate prompt with
  | Except.error _ => apologyMessage
  | Except.ok response =>
    match llmExtract response with
    | Except.error _ => apologyMessage
    | Except.ok generated_text => generated_text

/-- Handles held by an initialized ChatbotService (lines 30-58): the
embedding-model encode call, the vector-index query call and the LLM
chat-completion call. -/
structure ChatbotService where
  encode : String → EmbeddingVector
  collectionQuery : EmbeddingVector → Nat → Except PyErr QueryResults
  llmCreate : String → Except PyErr LLMResponse

/-- ChatbotService._embed_query (lines 60-64). -/
def embed_query (svc : ChatbotService) (query : String) : EmbeddingVector :=
  svc.encode query

/-- ChatbotService.get_rag_response (lines 140-164): embed the query,
retrieve the top-3 context documents, construct the prompt and generate the
answer. -/
def get_rag_response (svc : ChatbotService) (query : String) : String :=
  let query_embedding := embed_query svc query
  let retrieved := retrieve_context svc.collectionQuery query_embedding 3
  let context_documents := retrieved.1
  let prompt := construct_prompt query context_documents
  let final_response := generate_llm_response svc.llmCreate prompt
  final_response

/-- Result of a call to the FastAPI endpoint: a JSON chat response or a
raised HTTPException with a status code and detail string. -/
inductive HandlerResult where
  | chatResponse (answer : String)
  | httpException (status_code : Nat) (detail : String)
deriving DecidableEq

/-- Detail string of the 503 response (`main.py` line 62). -/
def serviceUnavailableDetail : String :=
  "Chatbot service is currently unavailable. Please check server logs."

/-- Detail string of the 400 response (`main.py` line 66). -/
def emptyQueryDetail : String := "Query cannot be empty."

/-- handle_chat_query (`main.py` lines 52-79): 503 when the service instance
is `None`, then 400 when the query is empty or whitespace-only, then the RAG
response. -/
def handle_chat_query (chatbot_service_instance : Option ChatbotService)
    (query : String) : HandlerResult :=
  match chatbot_service_instance with
  | none => HandlerResult.httpException 503 serviceUnavailableDetail
  | some svc =>
    if query = "" ∨ pyStrip query = "" then
      HandlerResult.httpException 400 emptyQueryDetail
    else
      HandlerResult.chatResponse (get_rag_response svc query)

/-- FAQ record read from `faqs.json`: id, question and answer. -/
structure FAQ where
  id : String
  question : String
  answer : String

/-- preprocess_faqs (`build_knowledge_base.py` lines 32-55): one combined
document text per record plus one metadata dictionary per record. -/
def preprocess_faqs (faqs_data : List FAQ) : List String × List Metadata :=
  (faqs_data.map (fun faq => "Question: " ++ faq.question ++ " Answer: " ++ faq.answer),
   faqs_data.map (fun faq =>
     [("original_question", faq.question), ("original_answer", faq.answer),
      ("faq_id", faq.id)]))

/-- Contents of one vector-store collection. -/
structure CollectionData where
  ids : List String
  embeddings : List EmbeddingVector
  documents : List String
  metadatas : List Metadata
deriving DecidableEq

/-- Persistent vector store: a list of named collections. -/
abbrev VectorStore := List (String × CollectionData)

/-- Fixed collection name shared by the builder and the runtime service. -/
def COLLECTION_NAME : String := "faq_collection"

/-- persistent_client.delete_collection(name): remove the named collection;
deleting an absent collection raises, which the builder catches and
ignores, so the model is a plain removal. -/
def delete_collection (st : VectorStore) (name : String) : VectorStore :=
  st.filter (fun entry => entry.1 != name)

/-- String id `f"doc_i"` generated for the i-th document (line 145). -/
def doc_id (i : Nat) : String := "doc_" ++ Nat.repr i

/-- store_in_chromadb (lines 109-166): delete any existing collection of the
fixed name, recreate it, and bulk-add all documents with their embeddings,
metadata and generated string ids. -/
def store_in_chromadb (documents : List String) (embeddings : List EmbeddingVector)
    (metadatas : List Metadata) (st : VectorStore) : VectorStore :=
  let st1 := delete_collection st COLLECTION_NAME
  let doc_ids := (List.range documents.length).map doc_id
  (COLLECTION_NAME, ⟨doc_ids, embeddings, documents, metadatas⟩) :: st1

/-- Lookup of a collection by name. -/
def getCollection : VectorStore → String → Option CollectionData
  | [], _ => none
  | (n, dataEntry) :: rest, name =>
    if n = name then some dataEntry else getCollection rest name

/-- Concrete service whose index and LLM calls always fail; used to
instantiate universally quantified statements. -/
def stubService : ChatbotService :=
  ⟨fun _ => [], fun _ _ => Except.error PyErr.runtimeError,
   fun _ => Except.error PyErr.runtimeError⟩

/-- Concrete service whose LLM call succeeds with whitespace-only content. -/
def emptyContentService : ChatbotService :=
  ⟨fun _ => [], fun _ _ => Except.error PyErr.runtimeError,
   fun _ => Except.ok ⟨[⟨⟨some "   "⟩⟩]⟩⟩

/-- Concrete always-failing LLM call. -/
def failingLLM : String → Except PyErr LLMResponse :=
  fun _ => Except.error PyErr.runtimeError

/-- Concrete always-failing vector-index query call. -/
def failingQuery : EmbeddingVector → Nat → Except PyErr QueryResults :=
  fun _ _ => Except.error PyErr.runtimeError

set_option maxRecDepth 8192

/-- Splitting of the template head at the end of the grounding instruction. -/
theorem promptHead_split :
    promptHead = groundingInstruction ++ "Be polite, understanding, and aim to provide clear and concise answers.\n\nKnowledge Base Context:\n---\n" := by
  rfl

/-- Every member of a joined list occurs inside the join. -/
theorem joinSep_mem (sep d : String) :
    ∀ docs : List String, d ∈ docs → ∃ a b, joinSep sep docs = a ++ (d ++ b) := by
  intro docs
  induction docs with
  | nil => intro h; cases h
  | cons x rest ih =>
    intro h
    rcases List.mem_cons.mp h with hd | hmem
    · subst hd
      cases rest with
      | nil => exact ⟨"", "", by simp [joinSep]⟩
      | cons y rest2 =>
        exact ⟨"", sep ++ joinSep sep (y :: rest2), by simp [joinSep, String.append_assoc]⟩
    · cases rest with
      | nil => cases hmem
      | cons y rest2 =>
        obtain ⟨a, b, hab⟩ := ih hmem
        exact ⟨x ++ sep ++ a, b, by simp [joinSep, hab, String.append_assoc]⟩

/-- Claim C2: for every query and every document list, the prompt built by
`_construct_prompt` is a single string that starts with the fixed grounding
instruction (answer only from the supplied context and state explicitly when
the context is insufficient) and contains the literal user query verbatim. -/
theorem construct_prompt_grounding (query : String) (context_documents : List String) :
    (∃ rest, construct_prompt query context_documents = groundingInstruction ++ rest) ∧
    (∃ s t, construct_prompt query context_documents = s ++ (query ++ t)) := by
  constructor
  · refine ⟨"Be polite, understanding, and aim to provide clear and concise answers.\n\nKnowledge Base Context:\n---\n" ++ (context_str context_documents ++ (promptMid ++ (query ++ promptTail))), ?_⟩
    simp only [construct_prompt, promptHead_split, String.append_assoc]
  · refine ⟨promptHead ++ context_str context_documents ++ promptMid, promptTail, ?_⟩
    simp only [construct_prompt, String.append_assoc]

/-- Claim C3: with an empty document list the prompt contains the fixed
no-information sentence, and the whole prompt is the fixed template around
the query alone, so it contains no retrieved document text. -/
theorem construct_prompt_no_context (query : String) :
    (∃ s t, construct_prompt query [] = s ++ (noContextSentence ++ t)) ∧
    construct_prompt query [] =
      promptHead ++ noContextSentence ++ promptMid ++ query ++ promptTail := by
  have h : construct_prompt query [] =
      promptHead ++ noContextSentence ++ promptMid ++ query ++ promptTail := rfl
  constructor
  · exact ⟨promptHead, promptMid ++ (query ++ promptTail), by
      rw [h]; simp [String.append_assoc]⟩
  · exact h

/-- Claim C4: if the vector-index query call raises, `_retrieve_context`
returns the empty retrieval result (empty documents, metadatas, distances)
and never propagates the exception. -/
theorem retrieve_context_failure
    (collectionQuery : EmbeddingVector → Nat → Except PyErr QueryResults)
    (query_embedding : EmbeddingVector) (n_results : Nat) (e : PyErr)
    (h : collectionQuery query_embedding n_results = Except.error e) :
    retrieve_context collectionQuery query_embedding n_results = ([], [], []) := by
  unfold retrieve_context
  rw [h]

/-- Concrete instantiation of `retrieve_context_failure` at an always-failing
index query. -/
theorem retrieve_context_failure_witness :
    failingQuery [] 3 = Except.error PyErr.runtimeError ∧
    retrieve_context failingQuery [] 3 = ([], [], []) :=
  ⟨rfl, retrieve_context_failure failingQuery [] 3 PyErr.runtimeError rfl⟩

/-- Claim C5: if the LLM chat-completion call raises, `_generate_llm_response`
returns the fixed user-facing apology string rather than raising. -/
theorem generate_llm_response_failure
    (llmCreate : String → Except PyErr LLMResponse) (prompt : String) (e : PyErr)
    (h : llmCreate prompt = Except.error e) :
    generate_llm_response llmCreate prompt = apologyMessage := by
  unfold generate_llm_response
  rw [h]

/-- Concrete instantiation of `generate_llm_response_failure` at an
always-failing LLM call. -/
theorem generate_llm_response_failure_witness :
    failingLLM "p" = Except.error PyErr.runtimeError ∧
    generate_llm_response failingLLM "p" = apologyMessage :=
  ⟨rfl, generate_llm_response_failure failingLLM "p" PyErr.runtimeError rfl⟩

/-- Claim C6: with the service initialized, an empty or whitespace-only query
is rejected with HTTP 400 and, since the result is the same for every
service value, the answer pipeline is never invoked for it. -/
theorem handle_chat_query_empty (svc : ChatbotService) (query : String)
    (h : pyStrip query = "") :
    handle_chat_query (some svc) query = HandlerResult.httpException 400 emptyQueryDetail := by
  simp only [handle_chat_query]
  rw [if_pos (Or.inr h)]

/-- Concrete instantiation of `handle_chat_query_empty` at a whitespace-only
query. -/
theorem handle_chat_query_empty_witness :
    pyStrip "  " = "" ∧
    handle_chat_query (some stubService) "  " = HandlerResult.httpException 400 emptyQueryDetail :=
  ⟨rfl, handle_chat_query_empty stubService "  " rfl⟩

/-- Claim C7: `get_rag_response` is exactly the sequential composition of
generation over the prompt assembled from the query and the documents
component of the retrieval at the query embedding with k fixed to 3; the
retrieved metadata and distances do not enter the prompt and no stage is
retried. -/
theorem get_rag_response_pipeline (svc : ChatbotService) (query : String) :
    get_rag_response svc query =
      generate_llm_response svc.llmCreate
        (construct_prompt query
          (retrieve_context svc.collectionQuery (embed_query svc query) 3).1) := rfl

/-- Claim C10: when the service failed to initialize, every request gets
HTTP 503, empty and whitespace-only queries included, which therefore do not
get the HTTP 400 validation answer in that state. -/
theorem handle_chat_query_unavailable (query : String) :
    handle_chat_query none query = HandlerResult.httpException 503 serviceUnavailableDetail := rfl

/-- Claim C8: with a non-empty document list the prompt contains the
blank-line join of the documents in retrieval order as one contiguous
substring, and hence contains every document as a substring, in that order,
with consecutive documents separated by a blank line. -/
theorem construct_prompt_docs_order (query : String) (docs : List String)
    (h : docs ≠ []) :
    (∃ s t, construct_prompt query docs = s ++ (joinSep "\n\n" docs ++ t)) ∧
    (∀ d, d ∈ docs → ∃ s t, construct_prompt query docs = s ++ (d ++ t)) := by
  have hctx : context_str docs = joinSep "\n\n" docs := by
    cases docs with
    | nil => exact absurd rfl h
    | cons x rest => rfl
  constructor
  · exact ⟨promptHead, promptMid ++ (query ++ promptTail), by
      simp only [construct_prompt, hctx, String.append_assoc]⟩
  · intro d hd
    obtain ⟨a, b, hab⟩ := joinSep_mem "\n\n" d docs hd
    exact ⟨promptHead ++ a, b ++ (promptMid ++ (query ++ promptTail)), by
      simp only [construct_prompt, hctx, hab, String.append_assoc]⟩

/-- Concrete instantiation of `construct_prompt_docs_order` at a two-document
list. -/
theorem construct_prompt_docs_order_witness :
    (["alpha", "beta"] : List String) ≠ [] ∧
    ((∃ s t, construct_prompt "q0" ["alpha", "beta"] =
        s ++ (joinSep "\n\n" ["alpha", "beta"] ++ t)) ∧
     (∀ d, d ∈ (["alpha", "beta"] : List String) →
        ∃ s t, construct_prompt "q0" ["alpha", "beta"] = s ++ (d ++ t))) :=
  ⟨by decide, construct_prompt_docs_order "q0" ["alpha", "beta"] (by decide)⟩

/-- Claim C1 fails as stated: with a service whose LLM call succeeds with
whitespace-only message content, the orchestrator returns the empty string
for the non-empty query "hi", so the answer is not always non-empty. -/
theorem get_rag_response_empty_answer :
    ("hi" : String) ≠ "" ∧ get_rag_response emptyContentService "hi" = "" := by
  constructor
  · decide
  · rfl

/-- Case analysis of `_generate_llm_response`: the result is the fixed
apology, or the LLM call and the extraction both succeed and the result is
the extracted stripped text. -/
theorem generate_llm_response_eq (llmCreate : String → Except PyErr LLMResponse)
    (prompt : String) :
    generate_llm_response llmCreate prompt = apologyMessage ∨
    ∃ r s, llmCreate prompt = Except.ok r ∧ llmExtract r = Except.ok s ∧
      generate_llm_response llmCreate prompt = s := by
  cases hc : llmCreate prompt with
  | error e =>
    left
    unfold generate_llm_response
    rw [hc]
  | ok r =>
    have hred : generate_llm_response llmCreate prompt =
        (match llmExtract r with
         | Except.error _ => apologyMessage
         | Except.ok generated_text => generated_text) := by
      unfold generate_llm_response
      rw [hc]
    cases he : llmExtract r with
    | error e => exact Or.inl (by rw [hred, he])
    | ok s => exact Or.inr ⟨r, s, rfl, he, by rw [hred, he]⟩

/-- Claim C1 (amended): for every non-empty query the orchestrator returns an
answer string without raising (all internal failures are absorbed), and the
answer is non-empty provided a successful extraction of the LLM completion is
never empty after stripping; in particular it is the non-empty fixed apology
whenever the LLM call or the extraction fails. -/
theorem get_rag_response_nonempty (svc : ChatbotService) (query : String)
    (hq : query ≠ "")
    (hllm : ∀ r s, svc.llmCreate (construct_prompt query
        (retrieve_context svc.collectionQuery (embed_query svc query) 3).1) = Except.ok r →
      llmExtract r = Except.ok s → s ≠ "") :
    get_rag_response svc query ≠ "" := by
  have hpipe : get_rag_response svc query =
      generate_llm_response svc.llmCreate (construct_prompt query
        (retrieve_context svc.collectionQuery (embed_query svc query) 3).1) := rfl
  rcases generate_llm_response_eq svc.llmCreate (construct_prompt query
      (retrieve_context svc.collectionQuery (embed_query svc query) 3).1) with
    h | ⟨r, s, hc, he, h⟩
  · rw [hpipe, h]; decide
  · rw [hpipe, h]; exact hllm r s hc he

/-- Concrete instantiation of `get_rag_response_nonempty` at a failing LLM
call: the answer is the apology, which is non-empty. -/
theorem get_rag_response_nonempty_witness :
    ("hi" : String) ≠ "" ∧ get_rag_response stubService "hi" ≠ "" :=
  ⟨by decide, get_rag_response_nonempty stubService "hi" (by decide)
    (by intro r s hc hs; simp [stubService] at hc)⟩

/-- Unfolding of the fuel-based decimal printer to the canonical digit list,
for positive inputs and sufficient fuel. -/
theorem toDigitsCore_eq : ∀ (fuel n : Nat) (ds : List Char), n < fuel → 0 < n →
    Nat.toDigitsCore 10 fuel n ds = ((Nat.digits 10 n).map Nat.digitChar).reverse ++ ds := by
  intro fuel
  induction fuel with
  | zero => intro n ds hn hpos; exact absurd hn (Nat.not_lt_zero n)
  | succ f ih =>
    intro n ds hn hpos
    have h10 : (1 : ℕ) < 10 := by norm_num
    by_cases h0 : n / 10 = 0
    · have hstep : Nat.toDigitsCore 10 (f + 1) n ds = Nat.digitChar (n % 10) :: ds := by
        simp only [Nat.toDigitsCore]
        rw [if_pos h0]
      rw [hstep, Nat.digits_def' h10 hpos, h0, Nat.digits_zero]
      simp
    · have hstep : Nat.toDigitsCore 10 (f + 1) n ds =
          Nat.toDigitsCore 10 f (n / 10) (Nat.digitChar (n % 10) :: ds) := by
        simp only [Nat.toDigitsCore]
        rw [if_neg h0]
      have hpos2 : 0 < n / 10 := Nat.pos_of_ne_zero h0
      have hlt : n / 10 < f := by
        have hdec : n / 10 < n := Nat.div_lt_self hpos (by norm_num)
        omega
      rw [hstep, ih (n / 10) (Nat.digitChar (n % 10) :: ds) hlt hpos2,
        Nat.digits_def' h10 hpos]
      simp [List.append_assoc]

/-- Decimal printing of a positive number is the reversed digit list mapped
through `digitChar`. -/
theorem toDigits_eq_digits (n : Nat) (hpos : 0 < n) :
    Nat.toDigits 10 n = ((Nat.digits 10 n).map Nat.digitChar).reverse := by
  have h := toDigitsCore_eq (n + 1) n [] (Nat.lt_succ_self n) hpos
  simpa [Nat.toDigits] using h

/-- Injectivity of `digitChar` on decimal digits. -/
theorem digitChar_inj (a b : Nat) (ha : a < 10) (hb : b < 10) :
    Nat.digitChar a = Nat.digitChar b → a = b := by
  interval_cases a <;> interval_cases b <;> decide

/-- Lists of decimal digits mapping to the same characters are equal. -/
theorem map_digitChar_inj : ∀ l1 l2 : List Nat, (∀ x ∈ l1, x < 10) → (∀ x ∈ l2, x < 10) →
    l1.map Nat.digitChar = l2.map Nat.digitChar → l1 = l2 := by
  intro l1
  induction l1 with
  | nil =>
    intro l2 _ _ h
    cases l2 with
    | nil => rfl
    | cons y ys => simp at h
  | cons x xs ih =>
    intro l2 h1 h2 h
    cases l2 with
    | nil => simp at h
    | cons y ys =>
      simp only [List.map_cons, List.cons.injEq] at h
      have hx : x = y :=
        digitChar_inj x y (h1 x (List.mem_cons_self x xs)) (h2 y (List.mem_cons_self y ys)) h.1
      have hxs : xs = ys := ih ys (fun z hz => h1 z (List.mem_cons_of_mem x hz))
        (fun z hz => h2 z (List.mem_cons_of_mem y hz)) h.2
      rw [hx, hxs]

/-- Only zero prints as the single character zero. -/
theorem eq_zero_of_toDigits_eq (n : Nat) (h : Nat.toDigits 10 n = ['0']) : n = 0 := by
  rcases Nat.eq_zero_or_pos n with hn | hn
  · exact hn
  · exfalso
    rw [toDigits_eq_digits n hn] at h
    have hmap : (Nat.digits 10 n).map Nat.digitChar = ['0'] := by
      have := congrArg List.reverse h
      simpa using this
    cases hdig : Nat.digits 10 n with
    | nil => rw [hdig] at hmap; simp at hmap
    | cons d rest =>
      rw [hdig] at hmap
      cases rest with
      | cons d2 rest2 => simp at hmap
      | nil =>
        simp only [List.map_cons, List.map_nil, List.cons.injEq, and_true] at hmap
        have hdlt : d < 10 := Nat.digits_lt_base (by norm_num)
          (by rw [hdig]; exact List.mem_cons_self d [])
        have hd0 : d = 0 := digitChar_inj d 0 hdlt (by norm_num) (by rw [hmap]; rfl)
        have hofd := Nat.ofDigits_digits 10 n
        rw [hdig, hd0] at hofd
        have hn0 : n = 0 := by simpa [Nat.ofDigits] using hofd.symm
        omega

/-- Decimal printing of naturals is injective. -/
theorem nat_repr_inj : ∀ m n : Nat, Nat.repr m = Nat.repr n → m = n := by
  intro m n h
  have hd : Nat.toDigits 10 m = Nat.toDigits 10 n := congrArg String.data h
  rcases Nat.eq_zero_or_pos m with hm | hm
  · rcases Nat.eq_zero_or_pos n with hn | hn
    · omega
    · have h0 : Nat.toDigits 10 n = ['0'] := by
        rw [hm] at hd
        exact hd.symm
      have := eq_zero_of_toDigits_eq n h0
      omega
  · rcases Nat.eq_zero_or_pos n with hn | hn
    · have h0 : Nat.toDigits 10 m = ['0'] := by
        rw [hn] at hd
        exact hd
      have := eq_zero_of_toDigits_eq m h0
      omega
    · rw [toDigits_eq_digits m hm, toDigits_eq_digits n hn] at hd
      have hrev := List.reverse_injective hd
      have hdig : Nat.digits 10 m = Nat.digits 10 n :=
        map_digitChar_inj _ _ (fun x hx => Nat.digits_lt_base (by norm_num) hx)
          (fun x hx => Nat.digits_lt_base (by norm_num) hx) hrev
      have h1 := Nat.ofDigits_digits 10 m
      have h2 := Nat.ofDigits_digits 10 n
      rw [hdig] at h1
      exact h1.symm.trans h2

/-- Generated document ids are pairwise distinct. -/
theorem doc_id_inj : Function.Injective doc_id := by
  intro i j h
  have hdata : ("doc_" : String).data ++ (Nat.repr i).data =
      ("doc_" : String).data ++ (Nat.repr j).data := by
    have := congrArg String.data h
    simpa [doc_id] using this
  have hr : (Nat.repr i).data = (Nat.repr j).data := List.append_cancel_left hdata
  exact nat_repr_inj i j (String.ext hr)

/-- Claim C9: the builder produces exactly one combined question+answer text
per FAQ record, replaces the whole fixed-name collection (delete, then
recreate with the new contents, for any previous store state), and bulk-adds
all documents under pairwise-distinct string ids. -/
theorem build_knowledge_base_replaces (faqs_data : List FAQ)
    (embeddings : List EmbeddingVector) (metadatas : List Metadata)
    (st : VectorStore) :
    (preprocess_faqs faqs_data).1 =
      faqs_data.map (fun faq => "Question: " ++ faq.question ++ " Answer: " ++ faq.answer) ∧
    store_in_chromadb (preprocess_faqs faqs_data).1 embeddings metadatas st =
      (COLLECTION_NAME,
        ⟨(List.range (preprocess_faqs faqs_data).1.length).map doc_id,
         embeddings, (preprocess_faqs faqs_data).1, metadatas⟩) ::
        delete_collection st COLLECTION_NAME ∧
    getCollection (store_in_chromadb (preprocess_faqs faqs_data).1 embeddings metadatas st)
        COLLECTION_NAME =
      some ⟨(List.range (preprocess_faqs faqs_data).1.length).map doc_id,
            embeddings, (preprocess_faqs faqs_data).1, metadatas⟩ ∧
    ((List.range (preprocess_faqs faqs_data).1.length).map doc_id).Nodup := by
  refine ⟨rfl, rfl, ?_, ?_⟩
  · simp [store_in_chromadb, getCollection]
  · exact (List.nodup_range _).map doc_id_inj
